import Mathlib

/-
Verification development for www/transwarp/db.py: a minimal database access
layer with a global engine, per-context lazy connections, nested transaction
scopes with reference counting, and query/update helpers.

The Python module is shallowly embedded: each Python class or function that
the properties talk about becomes an executable Lean definition, mirroring the
source control flow.  Driver behavior (the underlying sqlite3 connection and
its cursors) is a parameter: raw connections are identified by natural-number
ids, and the outcome of each fallible driver call (commit, rollback, cursor
acquisition, execute, fetch) is given by an explicit record, so that every
error path of the source can be exercised.  Exceptions are modelled with an
explicit error type; try/finally is modelled by running the finalizer code on
every branch.  Logging calls are side-effect free observations and are not
modelled.  Calls made on the underlying connection and cursors are recorded in
an event trace.
-/

/-- Exception values that the module can raise or observe.  The source defines
DBError and MultiColumnsError; TypeError and NameError stand for the built-in
Python exceptions reachable in the source (len applied to None, reference to
an unbound local name); driver n is an exception raised by the underlying
driver, with n giving its identity. -/
inductive PyErr where
  | dbError
  | multiColumnsError
  | typeError
  | nameError
  | driver (n : Nat)
deriving DecidableEq

/-- Events observable on the underlying driver objects: opening and cleaning
up the context connection, commit and rollback calls on the raw connection,
and cursor open/close calls. -/
inductive Ev where
  | init
  | cleanup
  | commit
  | rollback
  | cursorOpen
  | cursorClose
deriving DecidableEq

/-- True for the transaction-control calls made on the raw connection. -/
def Ev.isConnCall : Ev → Bool
  | .commit => true
  | .rollback => true
  | _ => false

/-- class _Engine: stores the object passed to its constructor; connect()
returns that stored object (it does not call a factory).  In this module the
stored object is the raw sqlite3 connection created in create_engine, modelled
by its id. -/
structure _Engine where
  _connect : Nat
deriving DecidableEq

/-- _Engine.connect: `return self._connect` — returns the stored connection. -/
def _Engine.connect (e : _Engine) : Nat := e._connect

/-- Process-wide state relevant to create_engine: the global `engine` variable
and a counter supplying the id of the next raw connection sqlite3.connect
would create (distinct calls to sqlite3.connect yield distinct connections). -/
structure GState where
  engine : Option _Engine
  nextConn : Nat
deriving DecidableEq

/-- sqlite3.connect(db): creates a fresh raw connection (fresh id). -/
def sqlite3_connect (w : GState) : Nat × GState :=
  (w.nextConn, { engine := w.engine, nextConn := w.nextConn + 1 })

/-- def create_engine(db): `conn = sqlite3.connect(db)` first, then raises
DBError if the global engine is already set, else sets `engine = _Engine(conn)`.
Returns the new process state and the raised exception, if any. -/
def create_engine (w : GState) : GState × Option PyErr :=
  let p := sqlite3_connect w
  match p.2.engine with
  | some _ => (p.2, some PyErr.dbError)
  | none => ({ engine := some { _connect := p.1 }, nextConn := p.2.nextConn }, none)

/-- class _LazyConnection: holds an optional raw connection id. -/
structure _LazyConnection where
  connection : Option Nat
deriving DecidableEq

/-- _LazyConnection.__init__: `self.connection = engine.connect()`. -/
def _LazyConnection.init (e : _Engine) : _LazyConnection :=
  { connection := some (e.connect) }

/-- _LazyConnection.cursor: if the stored connection is None, assign
`engine.connect()`; then return a cursor of the stored connection (the raw
connection the cursor belongs to is returned alongside the updated object). -/
def _LazyConnection.cursor (e : _Engine) (lc : _LazyConnection) : _LazyConnection × Nat :=
  match lc.connection with
  | none => ({ connection := some (e.connect) }, e.connect)
  | some c => (lc, c)

/-- _LazyConnection.cleanup: `pass` (the close logic is commented out). -/
def _LazyConnection.cleanup (lc : _LazyConnection) : _LazyConnection := lc

/-- class _DbCtx(threading.local): per-context state, fields `connection`
(None or a _LazyConnection) and `transactions` (an integer counter). -/
structure _DbCtx where
  connection : Option _LazyConnection
  transactions : Int
deriving DecidableEq

/-- _DbCtx.is_init: `return not self.connection is None`. -/
def _DbCtx.is_init (s : _DbCtx) : Bool := s.connection.isSome

/-- _DbCtx.init: `self.connection = _LazyConnection(); self.transactions = 0`. -/
def _DbCtx.init (e : _Engine) : _DbCtx :=
  { connection := some (_LazyConnection.init e), transactions := 0 }

/-- _DbCtx.cleanup: `self.connection.cleanup(); self.connection = None`
(the _LazyConnection cleanup is a no-op; transactions is not touched). -/
def _DbCtx.cleanup (s : _DbCtx) : _DbCtx :=
  { connection := none, transactions := s.transactions }

/-- _ConnectionCtx.__enter__: records should_cleanup = False, then if the
context is not initialized, initializes it and sets should_cleanup = True.
Returns the new context state and the should_cleanup flag. -/
def connEnter (e : _Engine) (s : _DbCtx) : _DbCtx × Bool :=
  if s.is_init then (s, false) else (_DbCtx.init e, true)

/-- _ConnectionCtx.__exit__(exctype, excvalue, traceback): cleans up iff
should_cleanup; the exception arguments are ignored, so this runs identically
on the normal and on the error exit path (excRaised records which path). -/
def connExit (s : _DbCtx) (should_cleanup : Bool) (excRaised : Bool) : _DbCtx :=
  if should_cleanup then s.cleanup else s

/-- Outcome behavior of the raw connection held by the context for the
transaction-control calls: none means the call succeeds, some e means the
call raises e. -/
structure RawConn where
  commitRes : Option PyErr
  rollbackRes : Option PyErr
deriving DecidableEq

/-- _TransactionCtx.commit: `try: connection.commit() except: connection.rollback(); raise`.
If commit succeeds nothing is raised.  If commit raises and the compensating
rollback succeeds, the bare raise re-raises the original commit error.  If the
compensating rollback itself raises, that exception propagates out of the
except block before the bare raise runs, so the rollback error is what
surfaces.  Returns the calls made on the raw connection and the exception, if
any, that propagates. -/
def txCommitMethod (c : RawConn) : List Ev × Option PyErr :=
  match c.commitRes with
  | none => ([Ev.commit], none)
  | some ce =>
    match c.rollbackRes with
    | none => ([Ev.commit, Ev.rollback], some ce)
    | some re => ([Ev.commit, Ev.rollback], some re)

/-- _TransactionCtx.rollback: `connection.rollback()`; propagates its error. -/
def txRollbackMethod (c : RawConn) : List Ev × Option PyErr :=
  ([Ev.rollback], c.rollbackRes)

/-- _TransactionCtx.__enter__: if the context is not initialized, initialize
it and set should_close_conn = True; then increment transactions.  Returns the
new context state, the events emitted, and the should_close_conn flag. -/
def txEnter (e : _Engine) (s : _DbCtx) : _DbCtx × List Ev × Bool :=
  let p : _DbCtx × List Ev × Bool :=
    if s.is_init then (s, [], false) else (_DbCtx.init e, [Ev.init], true)
  ({ connection := p.1.connection, transactions := p.1.transactions + 1 }, p.2.1, p.2.2)

/-- _TransactionCtx.__exit__(exctype, ...): decrement transactions; then
`try: if transactions == 0: commit if exctype is None else rollback`
`finally: if should_close_conn: cleanup`.  exctypeIsNone says whether the
protected block exited normally.  Returns the final context state, the events
emitted, and the exception, if any, raised by the commit/rollback attempt
(which propagates after the finally block runs). -/
def txExit (c : RawConn) (s : _DbCtx) (exctypeIsNone : Bool) (owner : Bool) :
    _DbCtx × List Ev × Option PyErr :=
  let s1 : _DbCtx := { connection := s.connection, transactions := s.transactions - 1 }
  let body : List Ev × Option PyErr :=
    if s1.transactions = 0 then
      if exctypeIsNone then txCommitMethod c else txRollbackMethod c
    else ([], none)
  if owner then (s1.cleanup, body.1 ++ [Ev.cleanup], body.2)
  else (s1, body.1, body.2)

/-- Syntax of a block executed inside transaction scopes: the empty statement,
a statement raising an exception, sequencing, and a nested
`with _TransactionCtx():` block. -/
inductive Prog where
  | skip
  | raiseErr
  | seq (p q : Prog)
  | tx (body : Prog)
deriving DecidableEq

/-- True iff no raise statement is reachable anywhere in the block (every
statement of a block runs unless an earlier one raised, so execution raises
iff some raise statement occurs in the block). -/
def noRaise : Prog → Bool
  | .skip => true
  | .raiseErr => false
  | .seq p q => noRaise p && noRaise q
  | .tx p => noRaise p

/-- Execution of a block on one execution context, recording the events on
the underlying connection.  Returns the final context state, the trace, and
True iff no exception is propagating at the end.  For `with _TransactionCtx():`
the __exit__ runs on both the normal and the error path (Python with-statement
semantics); _TransactionCtx.__exit__ returns None, so it never suppresses the
block exception, and an exception raised by __exit__ itself (commit failure)
also propagates. -/
def runProg (e : _Engine) (c : RawConn) : _DbCtx → Prog → _DbCtx × List Ev × Bool
  | s, .skip => (s, [], true)
  | s, .raiseErr => (s, [], false)
  | s, .seq p q =>
    let r1 := runProg e c s p
    if r1.2.2 then
      let r2 := runProg e c r1.1 q
      (r2.1, r1.2.1 ++ r2.2.1, r2.2.2)
    else r1
  | s, .tx p =>
    let en := txEnter e s
    let rb := runProg e c en.1 p
    let ex := txExit c rb.1 rb.2.2 en.2.2
    (ex.1, en.2.1 ++ rb.2.1 ++ ex.2.1, rb.2.2 && ex.2.2.isNone)

instance {eTy aTy : Type} [DecidableEq eTy] [DecidableEq aTy] :
    DecidableEq (Except eTy aTy) := fun x y =>
  match x, y with
  | .error a, .error b =>
    if h : a = b then isTrue (by rw [h]) else isFalse (by simp [h])
  | .error _, .ok _ => isFalse (by simp)
  | .ok _, .error _ => isFalse (by simp)
  | .ok a, .ok b =>
    if h : a = b then isTrue (by rw [h]) else isFalse (by simp [h])

/-- Behavior of a cursor obtained from the raw connection, for one statement:
the outcome of execute (none means success), the description attribute (the
column names, or None), the outcome of fetchone (a row of values, None when
no row is available, or an exception), the outcome of fetchall, and rowcount.
Cell values are modelled as natural numbers. -/
structure Cursor where
  executeRes : Option PyErr
  description : Option (List String)
  fetchoneRes : Except PyErr (Option (List Nat))
  fetchallRes : Except PyErr (List (List Nat))
  rowcount : Int
deriving DecidableEq

/-- Behavior of the raw connection as the query/update helpers see it: the
outcome of acquiring a cursor, and the outcome of connection.commit() for the
auto-commit in _update. -/
structure ConnT where
  cursorRes : Except PyErr Cursor
  commitRes : Option PyErr
deriving DecidableEq

/-- The `if cursor.description:` guard followed by
`names = [x[0] for x in cursor.description]`: the local variable `names` is
bound exactly when description is truthy (non-None and non-empty). -/
def descNames (d : Option (List String)) : Option (List String) :=
  match d with
  | none => none
  | some ns => if ns = [] then none else some ns

/-- One dict assignment `self[k] = v`: if the key is already present its
value is overwritten, otherwise the pair is appended.  The dict is modelled
as an association list with pairwise-distinct keys. -/
def dictInsert (d : List (String × Nat)) (k : String) (v : Nat) : List (String × Nat) :=
  if k ∈ d.map Prod.fst then d.map (fun kv => if kv.1 = k then (k, v) else kv)
  else d ++ [(k, v)]

/-- A Dict built as Dict(names, values): `for k, v in zip(names, values):
self[k] = v` (zip stops at the shorter sequence).  Like a Python dict it
deduplicates keys: assigning a name that already occurred overwrites its
value, so the dict length is the number of distinct zipped names, and for
a repeated name the last zipped value survives. -/
def mkDict (ns : List String) (vs : List Nat) : List (String × Nat) :=
  (ns.zip vs).foldl (fun d kv => dictInsert d kv.1 kv.2) []

/-- Helper: the keys of a zip form a sublist of the first sequence. -/
theorem zip_map_fst_sublist (ns : List String) (vs : List Nat) :
    List.Sublist ((ns.zip vs).map Prod.fst) ns := by
  induction ns generalizing vs with
  | nil => simp
  | cons n rest ih =>
    cases vs with
    | nil => simp
    | cons v vrest =>
      simpa using List.Sublist.cons₂ n (ih vrest)

/-- Helper: inserting pairs with pairwise-distinct keys, none of which occurs
in the accumulator, never overwrites, so the fold just appends the pairs. -/
theorem foldl_dictInsert (l : List (String × Nat)) :
    ∀ d : List (String × Nat), (l.map Prod.fst).Nodup →
      (∀ k, k ∈ l.map Prod.fst → k ∉ d.map Prod.fst) →
      l.foldl (fun acc kv => dictInsert acc kv.1 kv.2) d = d ++ l := by
  induction l with
  | nil =>
    intro d _ _
    simp
  | cons kv rest ih =>
    intro d hnd hdisj
    obtain ⟨k, v⟩ := kv
    have hk : k ∉ d.map Prod.fst := hdisj k (by simp)
    have hins : dictInsert d k v = d ++ [(k, v)] := by
      simp [dictInsert, hk]
    have hndc : k ∉ rest.map Prod.fst ∧ (rest.map Prod.fst).Nodup := by
      have h2 : (k :: rest.map Prod.fst).Nodup := by simpa using hnd
      exact List.nodup_cons.mp h2
    have hnd2 : (rest.map Prod.fst).Nodup := hndc.2
    have hknotin : k ∉ rest.map Prod.fst := hndc.1
    have hdisj2 : ∀ k2, k2 ∈ rest.map Prod.fst → k2 ∉ (d ++ [(k, v)]).map Prod.fst := by
      intro k2 hk2
      simp only [List.map_append, List.mem_append]
      rintro (h | h)
      · exact hdisj k2 (by simp [hk2]) h
      · simp at h
        subst h
        exact hknotin hk2
    calc ((k, v) :: rest).foldl (fun acc kv2 => dictInsert acc kv2.1 kv2.2) d
        = rest.foldl (fun acc kv2 => dictInsert acc kv2.1 kv2.2) (d ++ [(k, v)]) := by
          simp [hins]
      _ = (d ++ [(k, v)]) ++ rest := ih (d ++ [(k, v)]) hnd2 hdisj2
      _ = d ++ ((k, v) :: rest) := by simp

/-- Helper: when the column names are pairwise distinct — the ordinary case
for a result row — no dict assignment overwrites, so the Dict is exactly the
zip of names and values. -/
theorem mkDict_eq_zip (ns : List String) (vs : List Nat) (h : ns.Nodup) :
    mkDict ns vs = ns.zip vs := by
  have hnd : ((ns.zip vs).map Prod.fst).Nodup :=
    List.Nodup.sublist (zip_map_fst_sublist ns vs) h
  simpa [mkDict] using foldl_dictInsert (ns.zip vs) [] hnd (by simp)

/-- Result of _select: the `first` branch returns one optional Dict, the
other branch returns the list of all row Dicts. -/
inductive SelRes where
  | one (d : Option (List (String × Nat)))
  | many (ds : List (List (String × Nat)))
deriving DecidableEq

/-- def _select(sql, first, *args): acquire a cursor from the context
connection, execute, bind `names` if description is truthy, then either
fetchone (returning None for a falsy row, else a Dict) or fetchall (a list of
Dicts).  Any exception is re-raised unchanged; the finally block closes the
cursor whenever one was obtained.  The SQL text, placeholder rewriting and
logging do not affect the result and are not modelled; the driver outcome of
each call is given by conn.  Returns the cursor events and the result or the
propagating exception. -/
def _select (conn : ConnT) (first : Bool) : List Ev × Except PyErr SelRes :=
  match conn.cursorRes with
  | .error ex => ([], .error ex)
  | .ok cur =>
    let body : Except PyErr SelRes :=
      match cur.executeRes with
      | some ex => .error ex
      | none =>
        let names : Option (List String) := descNames cur.description
        if first then
          match cur.fetchoneRes with
          | .error ex => .error ex
          | .ok none => .ok (SelRes.one none)
          | .ok (some vs) =>
            if vs = [] then .ok (SelRes.one none)
            else
              match names with
              | some ns => .ok (SelRes.one (some (mkDict ns vs)))
              | none => .error PyErr.nameError
        else
          match cur.fetchallRes with
          | .error ex => .error ex
          | .ok rows =>
            match rows with
            | [] => .ok (SelRes.many [])
            | _ :: _ =>
              match names with
              | some ns => .ok (SelRes.many (rows.map (fun vs => mkDict ns vs)))
              | none => .error PyErr.nameError
    ([Ev.cursorOpen] ++ [Ev.cursorClose], body)

/-- def select_int(sql, *args): `d = _select(sql, True, *args)`, then
`if len(d) != 1: raise MultiColumnsError`, then `return d.values()[0]`.
When the query produced no row, d is None and len(None) raises TypeError.
The SelRes.many arm is unreachable for first = True (lemma
select_first_not_many below); in the model it is mapped to the TypeError a
len/values access on the wrong shape would raise.  The with_connection
wrapper around it only manages the context connection and does not change
the returned value or exception. -/
def select_int (conn : ConnT) : List Ev × Except PyErr Nat :=
  let r := _select conn true
  (r.1,
    match r.2 with
    | .error ex => .error ex
    | .ok (SelRes.one none) => .error PyErr.typeError
    | .ok (SelRes.one (some d)) =>
      if d.length = 1 then
        match d.head? with
        | some kv => .ok kv.2
        | none => .error PyErr.typeError
      else .error PyErr.multiColumnsError
    | .ok (SelRes.many _) => .error PyErr.typeError)

/-- def _update(sql, *args): under the with_connection wrapper; initializes
the context if needed, acquires a cursor, executes, reads rowcount, and when
no transaction is active commits the connection; the finally block closes
the cursor whenever one was obtained.  Returns the (possibly initialized)
context, the events, and the rowcount or the propagating exception. -/
def _update (e : _Engine) (conn : ConnT) (s : _DbCtx) : _DbCtx × List Ev × Except PyErr Int :=
  let s1 := if s.is_init then s else _DbCtx.init e
  match conn.cursorRes with
  | .error ex => (s1, [], .error ex)
  | .ok cur =>
    match cur.executeRes with
    | some ex => (s1, [Ev.cursorOpen, Ev.cursorClose], .error ex)
    | none =>
      if s1.transactions = 0 then
        match conn.commitRes with
        | some ex => (s1, [Ev.cursorOpen, Ev.commit, Ev.cursorClose], .error ex)
        | none => (s1, [Ev.cursorOpen, Ev.commit, Ev.cursorClose], .ok cur.rowcount)
      else (s1, [Ev.cursorOpen, Ev.cursorClose], .ok cur.rowcount)

/-- C6 evaluation: _LazyConnection() is not lazy.  Its constructor already
calls engine.connect() and stores the result, so right after construction the
handle is not None (first conjunct: it holds the engine connection; second:
it is not absent), and the lazy-creation branch inside cursor() is dead:
cursor() on a freshly constructed object returns it unchanged together with
the eagerly stored connection. -/
theorem lazy_connection_eager_connect :
    (_LazyConnection.init ⟨0⟩).connection = some 0 ∧
    (_LazyConnection.init ⟨0⟩).connection ≠ none ∧
    _LazyConnection.cursor ⟨0⟩ (_LazyConnection.init ⟨0⟩) = (_LazyConnection.init ⟨0⟩, 0) := by
  refine ⟨rfl, by decide, rfl⟩

/-- C7 evaluation: _Engine is not a factory of fresh connections.
create_engine on a fresh process state stores the single raw connection 0 it
just created; connect() returns exactly that stored connection, so every
_LazyConnection constructed from the engine (one per execution context that
initializes) holds the very same raw connection 0.  By contrast, genuinely
fresh creation — two successive sqlite3.connect calls — yields distinct
connections (last conjunct), which connect() never performs. -/
theorem engine_connect_shared :
    (create_engine ⟨none, 0⟩).1.engine = some ⟨0⟩ ∧
    _Engine.connect ⟨0⟩ = 0 ∧
    (_LazyConnection.init ⟨0⟩).connection = some 0 ∧
    (sqlite3_connect ⟨none, 0⟩).1 ≠ (sqlite3_connect (sqlite3_connect ⟨none, 0⟩).2).1 := by
  refine ⟨rfl, rfl, rfl, by decide⟩

/-- C8: create_engine succeeds at most once per process.  On a state with no
engine set, it sets the global engine (to an _Engine holding the raw
connection it just created) and raises nothing; on a state whose engine is
already set, it raises DBError and leaves the stored engine unchanged. -/
theorem create_engine_once (w : GState) (en : _Engine) :
    (w.engine = none →
      (create_engine w).1.engine = some ⟨w.nextConn⟩ ∧ (create_engine w).2 = none) ∧
    (w.engine = some en →
      (create_engine w).2 = some PyErr.dbError ∧ (create_engine w).1.engine = some en) := by
  obtain ⟨eng, nc⟩ := w
  constructor
  · intro h
    have heng : eng = none := h
    subst heng
    exact ⟨rfl, rfl⟩
  · intro h
    have heng : eng = some en := h
    subst heng
    exact ⟨rfl, rfl⟩

/-- Witness for create_engine_once: a first call on a fresh state succeeds
and sets the engine; a second call on the resulting state raises DBError and
keeps the engine set by the first call. -/
theorem create_engine_once_witness :
    ((create_engine ⟨none, 0⟩).1.engine = some ⟨0⟩ ∧ (create_engine ⟨none, 0⟩).2 = none) ∧
    ((create_engine ⟨some ⟨0⟩, 1⟩).2 = some PyErr.dbError ∧
     (create_engine ⟨some ⟨0⟩, 1⟩).1.engine = some ⟨0⟩) :=
  ⟨(create_engine_once ⟨none, 0⟩ ⟨0⟩).1 rfl, (create_engine_once ⟨some ⟨0⟩, 1⟩ ⟨0⟩).2 rfl⟩

/-- Helper: a block run on an initialized context with a strictly positive
transaction counter leaves the context unchanged and makes no call on the
underlying connection: every nested scope entered inside it only increments
the counter, and the matching exit only decrements it (the counter never
returns to 0 inside, so no commit or rollback happens, and no inner scope
owns the connection). -/
theorem runProg_inner (e : _Engine) (c : RawConn) (p : Prog) :
    ∀ s : _DbCtx, s.is_init = true → 1 ≤ s.transactions →
      runProg e c s p = (s, [], noRaise p) := by
  induction p with
  | skip =>
    intro s _ _
    simp [runProg, noRaise]
  | raiseErr =>
    intro s _ _
    simp [runProg, noRaise]
  | seq p q ihp ihq =>
    intro s h1 h2
    by_cases hnr : noRaise p = true
    · simp [runProg, noRaise, ihp s h1 h2, ihq s h1 h2, hnr]
    · have hnr2 : noRaise p = false := by simpa using hnr
      simp [runProg, noRaise, ihp s h1 h2, hnr2]
  | tx p ih =>
    intro s h1 h2
    have hen : txEnter e s =
        ({ connection := s.connection, transactions := s.transactions + 1 }, [], false) := by
      simp [txEnter, h1]
    have h1b : (_DbCtx.mk s.connection (s.transactions + 1)).is_init = true := by
      simpa [_DbCtx.is_init] using h1
    have hbody :=
      ih { connection := s.connection, transactions := s.transactions + 1 } h1b
        (by simp only; omega)
    have hne : ¬(s.transactions = 0) := by omega
    have hex : txExit c { connection := s.connection, transactions := s.transactions + 1 }
        (noRaise p) false =
        ({ connection := s.connection, transactions := s.transactions }, [], none) := by
      simp [txExit, hne]
    simp only [runProg, hen, hbody, hex, noRaise]
    simp

/-- A raw connection whose commit and rollback always succeed. -/
def reliableConn : RawConn := { commitRes := none, rollbackRes := none }

/-- C1: for every block of nested _TransactionCtx scopes run on one execution
context with the transaction depth at 0, if no scope body raises, the whole
execution performs exactly one commit call (and no rollback) on the underlying
connection; it is emitted by the outermost exit, when the depth returns to 0
(inner exits only decrement the counter, as runProg_inner shows), and the
execution ends with depth 0 and no exception. -/
theorem tx_commit_once (e : _Engine) (s : _DbCtx) (p : Prog)
    (ht : s.transactions = 0) (hp : noRaise p = true) :
    ((runProg e reliableConn s (Prog.tx p)).2.1.filter Ev.isConnCall = [Ev.commit]) ∧
    ((runProg e reliableConn s (Prog.tx p)).1.transactions = 0) ∧
    ((runProg e reliableConn s (Prog.tx p)).2.2 = true) := by
  obtain ⟨cn, tr⟩ := s
  have htr : tr = 0 := ht
  subst htr
  cases cn with
  | none =>
    have hbody := runProg_inner e reliableConn p ⟨some (_LazyConnection.init e), 1⟩
      (by simp [_DbCtx.is_init]) (by exact le_refl 1)
    have hcm : txCommitMethod reliableConn = ([Ev.commit], none) := rfl
    simp [runProg, txEnter, txExit, _DbCtx.is_init,
      _DbCtx.init, _DbCtx.cleanup, hbody, hp, hcm, Ev.isConnCall]
  | some lc =>
    have hbody := runProg_inner e reliableConn p ⟨some lc, 1⟩
      (by simp [_DbCtx.is_init]) (by exact le_refl 1)
    have hcm : txCommitMethod reliableConn = ([Ev.commit], none) := rfl
    simp [runProg, txEnter, txExit, _DbCtx.is_init,
      hbody, hp, hcm, Ev.isConnCall]

/-- Witness for tx_commit_once: three nested scopes with an empty innermost
body, starting from an uninitialized context. -/
theorem tx_commit_once_witness :
    ((runProg ⟨0⟩ reliableConn ⟨none, 0⟩
        (Prog.tx (Prog.tx (Prog.tx Prog.skip)))).2.1.filter Ev.isConnCall = [Ev.commit]) ∧
    ((runProg ⟨0⟩ reliableConn ⟨none, 0⟩
        (Prog.tx (Prog.tx (Prog.tx Prog.skip)))).1.transactions = 0) ∧
    ((runProg ⟨0⟩ reliableConn ⟨none, 0⟩
        (Prog.tx (Prog.tx (Prog.tx Prog.skip)))).2.2 = true) :=
  tx_commit_once ⟨0⟩ ⟨none, 0⟩ (Prog.tx (Prog.tx Prog.skip)) rfl rfl

/-- C2: for every block of nested _TransactionCtx scopes run on one execution
context with the transaction depth at 0, if some scope body raises an error
(which then propagates outward, since no exit suppresses it), the whole
execution performs exactly one rollback call and no commit call on the
underlying connection, regardless of which nesting level raised; the rollback
is emitted by the outermost exit, and the exception propagates to the caller. -/
theorem tx_rollback_once (e : _Engine) (s : _DbCtx) (p : Prog)
    (ht : s.transactions = 0) (hp : noRaise p = false) :
    ((runProg e reliableConn s (Prog.tx p)).2.1.filter Ev.isConnCall = [Ev.rollback]) ∧
    ((runProg e reliableConn s (Prog.tx p)).1.transactions = 0) ∧
    ((runProg e reliableConn s (Prog.tx p)).2.2 = false) := by
  obtain ⟨cn, tr⟩ := s
  have htr : tr = 0 := ht
  subst htr
  cases cn with
  | none =>
    have hbody := runProg_inner e reliableConn p ⟨some (_LazyConnection.init e), 1⟩
      (by simp [_DbCtx.is_init]) (by exact le_refl 1)
    have hrm : txRollbackMethod reliableConn = ([Ev.rollback], none) := rfl
    simp [runProg, txEnter, txExit, _DbCtx.is_init,
      _DbCtx.init, _DbCtx.cleanup, hbody, hp, hrm, Ev.isConnCall]
  | some lc =>
    have hbody := runProg_inner e reliableConn p ⟨some lc, 1⟩
      (by simp [_DbCtx.is_init]) (by exact le_refl 1)
    have hrm : txRollbackMethod reliableConn = ([Ev.rollback], none) := rfl
    simp [runProg, txEnter, txExit, _DbCtx.is_init,
      hbody, hp, hrm, Ev.isConnCall]

/-- Witness for tx_rollback_once: two nested scopes where the inner body
raises, starting from an uninitialized context. -/
theorem tx_rollback_once_witness :
    ((runProg ⟨0⟩ reliableConn ⟨none, 0⟩
        (Prog.tx (Prog.tx Prog.raiseErr))).2.1.filter Ev.isConnCall = [Ev.rollback]) ∧
    ((runProg ⟨0⟩ reliableConn ⟨none, 0⟩
        (Prog.tx (Prog.tx Prog.raiseErr))).1.transactions = 0) ∧
    ((runProg ⟨0⟩ reliableConn ⟨none, 0⟩
        (Prog.tx (Prog.tx Prog.raiseErr))).2.2 = false) :=
  tx_rollback_once ⟨0⟩ ⟨none, 0⟩ (Prog.tx Prog.raiseErr) rfl rfl

/-- C3: at an outermost _TransactionCtx exit (depth 1 to 0, protected block
exited normally) where the underlying commit raises, the scope performs
exactly one rollback call on the connection (the compensating one inside the
commit method, the rollback branch of __exit__ is not taken) and the exception
observed by the caller is the original commit error, provided the compensating
rollback itself succeeds. -/
theorem commit_failure_single_rollback (c : RawConn) (s : _DbCtx) (owner : Bool) (ce : PyErr)
    (h1 : c.commitRes = some ce) (h2 : c.rollbackRes = none) (h3 : s.transactions = 1) :
    ((txExit c s true owner).2.1.count Ev.rollback = 1) ∧
    ((txExit c s true owner).2.1.count Ev.commit = 1) ∧
    ((txExit c s true owner).2.2 = some ce) := by
  cases owner <;>
    simp [txExit, txCommitMethod, _DbCtx.cleanup, h1, h2, h3, List.count_cons]

/-- Witness for commit_failure_single_rollback: a connection whose commit
raises driver error 7 and whose rollback succeeds, at depth 1, with the scope
owning the connection. -/
theorem commit_failure_single_rollback_witness :
    ((txExit ⟨some (PyErr.driver 7), none⟩ ⟨some ⟨some 0⟩, 1⟩ true true).2.1.count Ev.rollback
      = 1) ∧
    ((txExit ⟨some (PyErr.driver 7), none⟩ ⟨some ⟨some 0⟩, 1⟩ true true).2.1.count Ev.commit
      = 1) ∧
    ((txExit ⟨some (PyErr.driver 7), none⟩ ⟨some ⟨some 0⟩, 1⟩ true true).2.2
      = some (PyErr.driver 7)) :=
  commit_failure_single_rollback ⟨some (PyErr.driver 7), none⟩ ⟨some ⟨some 0⟩, 1⟩ true
    (PyErr.driver 7) rfl rfl rfl

/-- C4 counterexample: at an outermost exit where commit raises driver error 0
and the compensating rollback raises driver error 1, the exception that
surfaces to the caller is the bare rollback error driver 1 — an unrelated
exception, not equal to (and not carrying) the original commit error driver 0.
The module defines no TransactionError class at all, and the bare raise after
the failed rollback is never reached, so nothing chains the commit error. -/
theorem rollback_error_replaces_commit_error :
    ((txExit ⟨some (PyErr.driver 0), some (PyErr.driver 1)⟩ ⟨some ⟨some 0⟩, 1⟩ true true).2.2
      = some (PyErr.driver 1)) ∧ PyErr.driver 1 ≠ PyErr.driver 0 := by
  constructor
  · rfl
  · decide

/-- C4 amended: if, during recovery from a failed commit, the compensating
rollback also raises, the rollback error itself propagates to the caller,
replacing the original commit error; no TransactionError wrapper exists in
the module and the original commit error is not re-raised. -/
theorem rollback_error_propagates (c : RawConn) (s : _DbCtx) (owner : Bool) (ce re : PyErr)
    (h1 : c.commitRes = some ce) (h2 : c.rollbackRes = some re) (h3 : s.transactions = 1) :
    (txExit c s true owner).2.2 = some re := by
  cases owner <;> simp [txExit, txCommitMethod, _DbCtx.cleanup, h1, h2, h3]

/-- Witness for rollback_error_propagates: commit raises driver error 0, the
compensating rollback raises driver error 1, at depth 1 with ownership. -/
theorem rollback_error_propagates_witness :
    (txExit ⟨some (PyErr.driver 0), some (PyErr.driver 1)⟩ ⟨some ⟨some 0⟩, 1⟩ true true).2.2
      = some (PyErr.driver 1) :=
  rollback_error_propagates ⟨some (PyErr.driver 0), some (PyErr.driver 1)⟩ ⟨some ⟨some 0⟩, 1⟩
    true (PyErr.driver 0) (PyErr.driver 1) rfl rfl rfl

/-- C5: behavior of _ConnectionCtx on one execution context.  If the context
is not initialized at entry, the scope initializes it (owning cleanup) and its
exit — which runs identically on the normal and on the error path — clears the
connection again; if moreover the body left the state as the entry produced it
(depth 0 at entry), the exit restores exactly the pre-entry state.  If the
context is already initialized at entry, entry returns it unchanged without
claiming ownership, and exit without ownership changes nothing, on either
exit path. -/
theorem connection_scope_ownership (e : _Engine) (s : _DbCtx) :
    (s.is_init = false →
      ((connEnter e s).2 = true ∧
       (connEnter e s).1.is_init = true ∧
       (∀ (t : _DbCtx) (exc : Bool), (connExit t true exc).connection = none) ∧
       (s.transactions = 0 → ∀ exc : Bool, connExit (connEnter e s).1 true exc = s))) ∧
    (s.is_init = true →
      (connEnter e s = (s, false) ∧
       ∀ (t : _DbCtx) (exc : Bool), connExit t false exc = t)) := by
  obtain ⟨cn, tr⟩ := s
  cases cn with
  | none =>
    refine ⟨fun _ => ⟨rfl, rfl, fun t exc => rfl, fun h0 exc => ?_⟩, fun h => ?_⟩
    · have htr : tr = 0 := h0
      subst htr
      rfl
    · simp [_DbCtx.is_init] at h
  | some lc =>
    refine ⟨fun h => ?_, fun _ => ⟨?_, fun t exc => rfl⟩⟩
    · simp [_DbCtx.is_init] at h
    · simp [connEnter, _DbCtx.is_init]

/-- Witness for connection_scope_ownership: an uninitialized context at depth
0; entering takes ownership and exiting (here on the error path) restores the
pre-entry state. -/
theorem connection_scope_ownership_witness :
    (connEnter ⟨0⟩ ⟨none, 0⟩).2 = true ∧
    (connEnter ⟨0⟩ ⟨none, 0⟩).1.is_init = true ∧
    connExit (connEnter ⟨0⟩ ⟨none, 0⟩).1 true true = ⟨none, 0⟩ ∧
    connEnter ⟨0⟩ ⟨some ⟨some 0⟩, 0⟩ = (⟨some ⟨some 0⟩, 0⟩, false) := by
  have h1 := (connection_scope_ownership ⟨0⟩ ⟨none, 0⟩).1 rfl
  have h2 := (connection_scope_ownership ⟨0⟩ ⟨some ⟨some 0⟩, 0⟩).2 rfl
  exact ⟨h1.1, h1.2.1, h1.2.2.2 rfl true, h2.1⟩

/-- Helper: _select with first = True never returns the fetchall-shaped
result, so the SelRes.many arm of select_int is unreachable. -/
theorem select_first_not_many (conn : ConnT) (ds : List (List (String × Nat))) :
    (_select conn true).2 ≠ Except.ok (SelRes.many ds) := by
  unfold _select
  cases hc : conn.cursorRes with
  | error ex => simp
  | ok cur =>
    simp only
    cases he : cur.executeRes with
    | some ex => simp
    | none =>
      simp only
      cases hf : cur.fetchoneRes with
      | error ex => simp
      | ok row =>
        cases row with
        | none => simp
        | some vs =>
          by_cases hvs : vs = [] <;>
            cases hn : descNames cur.description <;> simp [hvs]

/-- C9 counterexample: select_int on a query returning zero rows does not
return the absent/None value; it raises.  _select returns None, and
select_int then evaluates len(None), which raises TypeError.  Here the
cursor executes fine, has a one-column description, and fetchone reports no
row. -/
theorem select_int_zero_rows_raises :
    (select_int ⟨Except.ok ⟨none, some ["n"], Except.ok none, Except.ok [], 0⟩, none⟩).2
      = Except.error PyErr.typeError := rfl

/-- C9 amended: select_int on a result row with 2 or more columns raises
MultiColumnsError; on a query returning zero rows it raises TypeError (len
applied to the None returned by _select) instead of returning the None value;
on a one-row one-column result it returns that single scalar value. -/
theorem select_int_behavior (conn : ConnT) (cur : Cursor) (ns : List String) (vs : List Nat)
    (hc : conn.cursorRes = Except.ok cur) (he : cur.executeRes = none)
    (hd : cur.description = some ns) (hns : ns ≠ []) (hnodup : ns.Nodup) :
    (cur.fetchoneRes = Except.ok none → (select_int conn).2 = Except.error PyErr.typeError) ∧
    (cur.fetchoneRes = Except.ok (some vs) → 2 ≤ (ns.zip vs).length →
      (select_int conn).2 = Except.error PyErr.multiColumnsError) ∧
    (∀ (nm : String) (v : Nat), cur.fetchoneRes = Except.ok (some vs) →
      ns.zip vs = [(nm, v)] → (select_int conn).2 = Except.ok v) := by
  refine ⟨fun hf => ?_, fun hf hlen => ?_, fun nm v hf hz => ?_⟩
  · simp [select_int, _select, hc, he, hd, hf, descNames, hns]
  · have hvs : vs ≠ [] := by
      intro h
      subst h
      simp at hlen
    have hzl := @List.length_zip _ _ ns vs
    have hlen2 : ¬(ns.length ⊓ vs.length = 1) := by omega
    have hmk : mkDict ns vs = ns.zip vs := mkDict_eq_zip ns vs hnodup
    simp [select_int, _select, hc, he, hd, hf, descNames, hns, hvs, hmk, hlen2]
  · have hvs : vs ≠ [] := by
      intro h
      subst h
      simp at hz
    have hmk : mkDict ns vs = ns.zip vs := mkDict_eq_zip ns vs hnodup
    simp [select_int, _select, hc, he, hd, hf, descNames, hns, hvs, hmk, hz]

/-- Kept outside the claim statements for documentation: a result row with a
duplicated column name collapses in the Dict, exactly as a Python dict does.
For names a, a and row values 1, 2 the Dict is the single entry (a, 2), so
len(d) is 1 and select_int returns the surviving value 2 instead of raising
MultiColumnsError. -/
theorem select_int_duplicate_names_collapse :
    (select_int ⟨Except.ok
        ⟨none, some ["a", "a"], Except.ok (some [1, 2]), Except.ok [], 0⟩, none⟩).2
      = Except.ok 2 := by decide

/-- Witness for select_int_behavior: a one-row one-column result with value
42 yields 42. -/
theorem select_int_behavior_witness :
    (select_int ⟨Except.ok ⟨none, some ["n"], Except.ok (some [42]), Except.ok [], 1⟩, none⟩).2
      = Except.ok 42 :=
  ((select_int_behavior
      ⟨Except.ok ⟨none, some ["n"], Except.ok (some [42]), Except.ok [], 1⟩, none⟩
      ⟨none, some ["n"], Except.ok (some [42]), Except.ok [], 1⟩ ["n"] [42]
      rfl rfl rfl (by decide) (by decide)).2.2) "n" 42 rfl rfl

/-- C10: in _select and in _update, whenever a cursor has been obtained, it is
closed on every exit path — the traces contain as many cursor-close calls as
cursor-open calls, and whenever a cursor was opened it was also closed — for
every driver behavior, including the paths where cursor acquisition, execute,
fetch or the auto-commit raise. -/
theorem cursor_always_closed :
    (∀ (conn : ConnT) (first : Bool),
      ((_select conn first).1.count Ev.cursorOpen = (_select conn first).1.count Ev.cursorClose) ∧
      (Ev.cursorOpen ∈ (_select conn first).1 → Ev.cursorClose ∈ (_select conn first).1)) ∧
    (∀ (e : _Engine) (conn : ConnT) (s : _DbCtx),
      ((_update e conn s).2.1.count Ev.cursorOpen = (_update e conn s).2.1.count Ev.cursorClose) ∧
      (Ev.cursorOpen ∈ (_update e conn s).2.1 → Ev.cursorClose ∈ (_update e conn s).2.1)) := by
  constructor
  · intro conn first
    cases hc : conn.cursorRes with
    | error ex => simp [_select, hc]
    | ok cur => refine ⟨by simp [_select, hc], by simp [_select, hc]⟩
  · intro e conn s
    cases hc : conn.cursorRes with
    | error ex => simp [_update, hc]
    | ok cur =>
      cases he : cur.executeRes with
      | some ex => refine ⟨by simp [_update, hc, he], by simp [_update, hc, he]⟩
      | none =>
        by_cases ht : (if s.is_init then s else _DbCtx.init e).transactions = 0
        · cases hcm : conn.commitRes with
          | some ex => refine ⟨by simp [_update, hc, he, ht, hcm],
              by simp [_update, hc, he, ht, hcm]⟩
          | none => refine ⟨by simp [_update, hc, he, ht, hcm],
              by simp [_update, hc, he, ht, hcm]⟩
        · refine ⟨by simp [_update, hc, he, ht], by simp [_update, hc, he, ht]⟩

/-- Witness for cursor_always_closed: a driver whose execute raises still has
its cursor closed in _select, and a successful auto-committing _update opens
and closes exactly one cursor. -/
theorem cursor_always_closed_witness :
    ((_select ⟨Except.ok ⟨some (PyErr.driver 3), none, Except.ok none, Except.ok [], 0⟩, none⟩
        true).1.count Ev.cursorOpen =
     (_select ⟨Except.ok ⟨some (PyErr.driver 3), none, Except.ok none, Except.ok [], 0⟩, none⟩
        true).1.count Ev.cursorClose) ∧
    ((_update ⟨0⟩ ⟨Except.ok ⟨none, none, Except.ok none, Except.ok [], 1⟩, none⟩
        ⟨none, 0⟩).2.1.count Ev.cursorOpen =
     (_update ⟨0⟩ ⟨Except.ok ⟨none, none, Except.ok none, Except.ok [], 1⟩, none⟩
        ⟨none, 0⟩).2.1.count Ev.cursorClose) :=
  ⟨(cursor_always_closed.1
      ⟨Except.ok ⟨some (PyErr.driver 3), none, Except.ok none, Except.ok [], 0⟩, none⟩ true).1,
   (cursor_always_closed.2 ⟨0⟩
      ⟨Except.ok ⟨none, none, Except.ok none, Except.ok [], 1⟩, none⟩ ⟨none, 0⟩).1⟩
